import Mathlib

/-!
Verification of the fallback/retry mechanisms of the fitness web application:
the Model Resolver (src/app/api/utils/get-available-models.ts), the Fallback
Invoker loops of the generate, describe and text-to-speech request handlers
(src/app/api/generate/route.ts, src/app/api/describe/route.ts, the TTS route),
and the Local Response Cache (src/hooks/useExerciseImage.ts).

The TypeScript code is embedded shallowly: the network is abstracted by
passing each candidate model name together with the outcome its attempt
produces, and the browser localStorage by a function from keys to stored
slots.  String operations mirror the JavaScript ones on the character lists
underlying Lean strings.
-/

namespace FitnessApp

/-! ## String helpers

`strIncludes s sub` models JavaScript `s.includes(sub)`, `strStartsWith s p`
models `s.startsWith(p)`, and `joinComma` models `Array.prototype.join(", ")`.
-/

/-- Does `hay` contain `needle` as a contiguous sublist?  (JS `includes`.) -/
def listContains (needle : List Char) : List Char → Bool
  | [] => needle.isPrefixOf []
  | c :: t => needle.isPrefixOf (c :: t) || listContains needle t

/-- JS `s.includes(sub)`. -/
def strIncludes (s sub : String) : Bool :=
  listContains sub.data s.data

/-- JS `s.startsWith(p)`. -/
def strStartsWith (s p : String) : Bool :=
  p.data.isPrefixOf s.data

/-- JS `array.join(", ")`. -/
def joinComma : List String → String
  | [] => ""
  | [m] => m
  | m :: n :: ms => m ++ ", " ++ joinComma (n :: ms)

theorem isPrefixOf_self {l : List Char} : l.isPrefixOf l = true := by
  induction l with
  | nil => rfl
  | cons a t ih => simp [List.isPrefixOf, ih]

theorem isPrefixOf_append {l h t : List Char} (hp : l.isPrefixOf h = true) :
    l.isPrefixOf (h ++ t) = true := by
  induction l generalizing h with
  | nil => cases h ++ t <;> simp [List.isPrefixOf]
  | cons a l2 ih =>
    cases h with
    | nil => simp [List.isPrefixOf] at hp
    | cons b h2 =>
      simp only [List.isPrefixOf, Bool.and_eq_true] at hp
      simp only [List.cons_append, List.isPrefixOf, Bool.and_eq_true]
      exact ⟨hp.1, ih hp.2⟩

theorem listContains_self {l : List Char} : listContains l l = true := by
  cases l with
  | nil => rfl
  | cons a t => simp [listContains, isPrefixOf_self]

theorem listContains_append_right {n h : List Char} (pre : List Char)
    (hc : listContains n h = true) : listContains n (pre ++ h) = true := by
  induction pre with
  | nil => simpa using hc
  | cons c t ih =>
    simp only [List.cons_append, listContains, Bool.or_eq_true]
    exact Or.inr ih

theorem listContains_append_left {n h : List Char} (suf : List Char)
    (hc : listContains n h = true) : listContains n (h ++ suf) = true := by
  induction h with
  | nil =>
    simp only [listContains] at hc
    simp only [List.nil_append]
    cases suf with
    | nil => simpa [listContains] using hc
    | cons c t =>
      simp only [listContains, Bool.or_eq_true]
      exact Or.inl (isPrefixOf_append (t := c :: t) hc)
  | cons c t ih =>
    simp only [listContains, Bool.or_eq_true] at hc
    simp only [List.cons_append, listContains, Bool.or_eq_true]
    rcases hc with hc | hc
    · exact Or.inl (by simpa using isPrefixOf_append (h := c :: t) hc)
    · exact Or.inr (ih hc)

theorem listContains_joinComma {m : String} :
    ∀ {l : List String}, m ∈ l → listContains m.data (joinComma l).data = true := by
  intro l
  induction l with
  | nil => intro h; cases h
  | cons a t ih =>
    intro hm
    cases t with
    | nil =>
      rcases List.mem_cons.mp hm with h | h
      · subst h; exact listContains_self
      · cases h
    | cons b t2 =>
      rcases List.mem_cons.mp hm with h | h
      · subst h
        show listContains m.data ((m ++ ", ") ++ joinComma (b :: t2)).data = true
        rw [String.data_append, String.data_append]
        exact listContains_append_left _
          (listContains_append_left _ listContains_self)
      · show listContains m.data ((a ++ ", ") ++ joinComma (b :: t2)).data = true
        rw [String.data_append]
        exact listContains_append_right _ (ih h)

/-- A candidate appearing in a joined list is found by `includes` in any
message of the form `pre + join(list) + suf`. -/
theorem strIncludes_pre_join_suf {m : String} {l : List String} (pre suf : String)
    (h : m ∈ l) : strIncludes (pre ++ joinComma l ++ suf) m = true := by
  show listContains m.data ((pre ++ joinComma l) ++ suf).data = true
  rw [String.data_append, String.data_append]
  exact listContains_append_left _ (listContains_append_right _ (listContains_joinComma h))

/-- Same, with no trailing text after the joined list. -/
theorem strIncludes_pre_join {m : String} {l : List String} (pre : String)
    (h : m ∈ l) : strIncludes (pre ++ joinComma l) m = true := by
  show listContains m.data (pre ++ joinComma l).data = true
  rw [String.data_append]
  exact listContains_append_right _ (listContains_joinComma h)

/-! ## Model Resolver (src/app/api/utils/get-available-models.ts)

`getModelsToTry` takes the list of model names returned by the availability
query (`getAvailableModels`; the network call is abstracted into the input
list, an empty list standing for a failed or empty listing) and produces the
ordered candidate list, lines 39-107 of the source.
-/

/-- The predicate of the `stableModels` filter (lines 46-51): no
"preview"/"experimental"/"exp"/"beta" marker in the identifier. -/
def isStableName (m : String) : Bool :=
  !(strIncludes m "preview") && !(strIncludes m "experimental") &&
  !(strIncludes m "exp") && !(strIncludes m "beta")

/-- The predicate of the `previewModels` filter (lines 79-83). -/
def isPreviewName (m : String) : Bool :=
  strIncludes m "preview" || strIncludes m "experimental" || strIncludes m "exp"

/-- `stableModels` (lines 46-51). -/
def stableModelsOf (availableModels : List String) : List String :=
  availableModels.filter fun m => isStableName m

/-- `geminiFlash` (lines 55-59). -/
def geminiFlashOf (stableModels : List String) : List String :=
  stableModels.filter fun m =>
    strIncludes m "flash" && strStartsWith m "gemini" &&
    (strIncludes m "2.5" || strIncludes m "2.0" || strIncludes m "1.5" || strIncludes m "1.0")

/-- `geminiPro` (lines 60-65). -/
def geminiProOf (stableModels : List String) : List String :=
  stableModels.filter fun m =>
    strIncludes m "pro" && !(strIncludes m "flash") && strStartsWith m "gemini" &&
    (strIncludes m "2.5" || strIncludes m "2.0" || strIncludes m "1.5" || strIncludes m "1.0")

/-- `otherGemini` (lines 66-70). -/
def otherGeminiOf (stableModels : List String) : List String :=
  stableModels.filter fun m =>
    strStartsWith m "gemini" && !(strIncludes m "flash") && !(strIncludes m "pro")

/-- `gemmaModels` (line 72). -/
def gemmaModelsOf (stableModels : List String) : List String :=
  stableModels.filter fun m => strStartsWith m "gemma"

/-- `otherStable` (lines 73-76). -/
def otherStableOf (stableModels : List String) : List String :=
  stableModels.filter fun m =>
    !(strStartsWith m "gemini") && !(strStartsWith m "gemma")

/-- `previewModels` (lines 79-83). -/
def previewModelsOf (availableModels : List String) : List String :=
  availableModels.filter fun m => isPreviewName m

/-- The hard-coded fallback list (lines 99-106). -/
def fallbackModels : List String :=
  ["gemini-1.5-flash", "gemini-1.5-flash-8b", "gemini-1.5-flash-latest",
   "gemini-1.5-pro", "gemini-1.0-pro", "gemini-pro"]

/-- `getModelsToTry` (lines 39-107), with the availability query already
resolved into `availableModels`. -/
def getModelsToTry (availableModels : List String) : List String :=
  if availableModels.length > 0 then
    geminiFlashOf (stableModelsOf availableModels) ++
    geminiProOf (stableModelsOf availableModels) ++
    otherGeminiOf (stableModelsOf availableModels) ++
    otherStableOf (stableModelsOf availableModels) ++
    gemmaModelsOf (stableModelsOf availableModels) ++
    previewModelsOf availableModels
  else
    fallbackModels

/-! ## Local Response Cache (src/hooks/useExerciseImage.ts, lines 20-84)

localStorage is modelled as a function from keys to stored slots; a slot is
either an entry of the expected `CachedImage` shape or an unparseable blob
(`corrupt`), covering the `JSON.parse` failure path.  `Date.now()` is passed
in as `now` (epoch milliseconds).
-/

def CACHE_PREFIX : String := "exercise_image_"

def CACHE_VERSION : String := "v2"

def CACHE_EXPIRY_DAYS : Int := 7

def CACHE_EXPIRY_MS : Int := CACHE_EXPIRY_DAYS * 24 * 60 * 60 * 1000

/-- The stored record (lines 3-7): `version` is optional in the interface. -/
structure CachedImage where
  url : String
  timestamp : Int
  version : Option String
deriving DecidableEq

/-- One localStorage slot: a parseable entry or an unparseable blob. -/
inductive CacheSlot where
  | entry : CachedImage → CacheSlot
  | corrupt : CacheSlot
deriving DecidableEq

/-- localStorage: keys to slots. -/
def Store : Type := String → Option CacheSlot

/-- `localStorage.removeItem`. -/
def removeItem (store : Store) (key : String) : Store :=
  fun k => if k = key then none else store k

/-- The key `` `${CACHE_PREFIX}${name}` ``. -/
def cacheKey (name : String) : String := CACHE_PREFIX ++ name

/-- `getCachedImage` (lines 40-66): the returned value and the storage state
after the read.  A missing key or an unparseable entry returns `none` and
leaves storage unchanged; a version mismatch or an expired entry removes the
entry and returns `none`. -/
def getCachedImage (store : Store) (name : String) (now : Int) :
    Option String × Store :=
  match store (cacheKey name) with
  | none => (none, store)
  | some CacheSlot.corrupt => (none, store)
  | some (CacheSlot.entry d) =>
    if d.version ≠ some CACHE_VERSION then (none, removeItem store (cacheKey name))
    else if now - d.timestamp > CACHE_EXPIRY_MS then (none, removeItem store (cacheKey name))
    else (some d.url, store)

/-- `setCachedImage` (lines 71-84): stores
`{url, timestamp: Date.now(), version: CACHE_VERSION}` under the derived key. -/
def setCachedImage (store : Store) (name url : String) (now : Int) : Store :=
  fun k =>
    if k = cacheKey name then
      some (CacheSlot.entry { url := url, timestamp := now, version := some CACHE_VERSION })
    else store k

/-! ## Fallback Invoker

Three request handlers run the same candidate loop with different failure
classification:

* generate (src/app/api/generate/route.ts, lines 90-141 and the outer catch
  at lines 271-291),
* describe (src/app/api/describe/route.ts, lines 107-166),
* text-to-speech (the TTS route, loop at lines 93-146).

A candidate is a model name paired with the outcome its attempt produces;
an error carries the optional HTTP status (`error.status`, possibly
undefined) and the message.
-/

/-- An upstream error: `error.status` (possibly undefined) and `error.message`. -/
structure ErrInfo where
  status : Option Nat
  msg : String
deriving DecidableEq

/-- The outcome of attempting one candidate. -/
inductive Attempt (α : Type) where
  | success : α → Attempt α
  | failure : Option Nat → String → Attempt α
deriving DecidableEq

/-- The state when the candidate loop exits: the candidates actually
attempted in order, the `result` variable, the error rethrown from inside
the loop (generate only), and the `lastError` variable. -/
structure LoopState (α : Type) where
  tried : List String
  result : Option α
  thrown : Option ErrInfo
  lastError : Option ErrInfo
deriving DecidableEq

/-- The generate loop classification (route.ts line 108): 503, 404 and 400
continue with the next model; everything else is rethrown. -/
def generateRetryable (s : Option Nat) : Bool :=
  s == some 503 || s == some 404 || s == some 400

/-- The describe loop classification (route.ts line 117): 503, 429, 404 and
400 continue with the next model; everything else breaks out of the loop. -/
def describeRetryable (s : Option Nat) : Bool :=
  s == some 503 || s == some 429 || s == some 404 || s == some 400

/-- The generate loop (generate/route.ts lines 90-116): success breaks,
retryable failures record `lastError` and continue, other failures are
rethrown. -/
def generateLoop {α : Type} :
    List (String × Attempt α) → Option ErrInfo → LoopState α
  | [], le => ⟨[], none, none, le⟩
  | (m, att) :: rest, le =>
    match att with
    | Attempt.success x => ⟨[m], some x, none, le⟩
    | Attempt.failure s msg =>
      if generateRetryable s then
        let st := generateLoop rest (some ⟨s, msg⟩)
        ⟨m :: st.tried, st.result, st.thrown, st.lastError⟩
      else ⟨[m], none, some ⟨s, msg⟩, some ⟨s, msg⟩⟩

/-- The describe loop (describe/route.ts lines 107-126): like generate, but
a non-retryable failure `break`s (nothing is thrown). -/
def describeLoop {α : Type} :
    List (String × Attempt α) → Option ErrInfo → LoopState α
  | [], le => ⟨[], none, none, le⟩
  | (m, att) :: rest, le =>
    match att with
    | Attempt.success x => ⟨[m], some x, none, le⟩
    | Attempt.failure s msg =>
      if describeRetryable s then
        let st := describeLoop rest (some ⟨s, msg⟩)
        ⟨m :: st.tried, st.result, st.thrown, st.lastError⟩
      else ⟨[m], none, none, some ⟨s, msg⟩⟩

/-- The TTS loop (lines 93-131 of the TTS route): a 401 `break`s immediately;
a 404 continues; every other failure also continues. -/
def ttsLoop {α : Type} :
    List (String × Attempt α) → Option ErrInfo → LoopState α
  | [], le => ⟨[], none, none, le⟩
  | (m, att) :: rest, le =>
    match att with
    | Attempt.success x => ⟨[m], some x, none, le⟩
    | Attempt.failure s msg =>
      if s == some 401 then ⟨[m], none, none, some ⟨s, msg⟩⟩
      else
        let st := ttsLoop rest (some ⟨s, msg⟩)
        ⟨m :: st.tried, st.result, st.thrown, st.lastError⟩

/-- JS `error.status || 500`. -/
def jsOrStatus (s : Option Nat) (d : Nat) : Nat :=
  match s with
  | some n => if n = 0 then d else n
  | none => d

/-- JS `message || fallback` (the empty string is falsy). -/
def jsOrMsg (m fallback : String) : String :=
  if m = "" then fallback else m

/-- A request handler response: a payload or an HTTP status with a message. -/
inductive RouteResult (α : Type) where
  | ok : α → RouteResult α
  | err : Nat → String → RouteResult α
deriving DecidableEq

/-- The message of the terminal error synthesized by the generate handler
when every candidate failed (generate/route.ts lines 119-141). -/
def generateFinalMsg (modelNames : List String) (lastError : Option ErrInfo) : String :=
  match lastError with
  | some e =>
    if e.status == some 503 then
      "All models are currently overloaded. Please try again in a few moments. Tried: " ++
        joinComma modelNames
    else if e.status == some 404 then
      "No available models found. Tried: " ++ joinComma modelNames ++
        ".\n\nThis usually means the Generative AI API is not enabled in your Google Cloud project.\n\nTo fix:\n1. Go to: https://console.cloud.google.com/apis/library/generativelanguage.googleapis.com\n2. Select your project (projects/599646167290)\n3. Click \"Enable\" to enable the Generative AI API\n4. Wait a few minutes and try again\n\nOr check available models at: http://localhost:3000/api/list-models"
    else if e.status == some 401 then
      "Invalid API key. Please check your GEMINI_API_KEY."
    else if e.status == some 429 then
      "Rate limit exceeded. Please try again later."
    else
      "API Error: " ++ jsOrMsg e.msg "Unknown error"
  | none => "API Error: " ++ jsOrMsg "" "Unknown error"

/-- The generate handler around its loop: a success returns the payload; an
error thrown inside the loop reaches the outer catch, whose response keeps
`error.status || 500` and the message; exhaustion throws a synthesized
`Error` (no `status` field), so the outer catch reports it with status 500. -/
def generateInvoke {α : Type} (cands : List (String × Attempt α)) : RouteResult α :=
  let st := generateLoop cands none
  match st.result with
  | some x => RouteResult.ok x
  | none =>
    match st.thrown with
    | some e => RouteResult.err (jsOrStatus e.status 500) e.msg
    | none => RouteResult.err 500 (generateFinalMsg (cands.map Prod.fst) st.lastError)

/-- The describe handler after its loop (describe/route.ts lines 129-163):
the status and `error` message returned when `result` is still unset. -/
def describeFinalize (modelNames : List String) (lastError : Option ErrInfo) : Nat × String :=
  match lastError with
  | some e =>
    if e.status == some 429 then
      (429, "Rate limit exceeded. All models are currently rate-limited. Please try again in a few minutes.")
    else if e.status == some 503 then
      (503, "All models are currently overloaded. Please try again in a few moments. Tried: " ++
        joinComma modelNames)
    else if e.status == some 404 then
      (404, "No available models found. Tried: " ++ joinComma modelNames ++
        ". Your API key may not have access to these models.")
    else
      (500, jsOrMsg e.msg "Unknown error occurred")
  | none => (500, jsOrMsg "" "Unknown error occurred")

/-- The describe handler around its loop. -/
def describeInvoke {α : Type} (cands : List (String × Attempt α)) : RouteResult α :=
  let st := describeLoop cands none
  match st.result with
  | some x => RouteResult.ok x
  | none =>
    RouteResult.err (describeFinalize (cands.map Prod.fst) st.lastError).1
      (describeFinalize (cands.map Prod.fst) st.lastError).2

/-- The TTS handler outcome: a payload, the 401 "Authentication failed"
response built when the loop ended on a 401 (lines 134-142 of the route), or
the rethrow of `lastError` to the outer catch. -/
inductive TtsResult (α : Type) where
  | ok : α → TtsResult α
  | authFailed : TtsResult α
  | thrown : ErrInfo → TtsResult α
deriving DecidableEq

/-- The TTS handler around its loop (lines 133-146 of the route):
`throw lastError || new Error("Failed to generate speech with all models")`. -/
def ttsInvoke {α : Type} (cands : List (String × Attempt α)) : TtsResult α :=
  let st := ttsLoop cands none
  match st.result with
  | some x => TtsResult.ok x
  | none =>
    match st.lastError with
    | some e =>
      if e.status == some 401 then TtsResult.authFailed
      else TtsResult.thrown e
    | none => TtsResult.thrown ⟨none, "Failed to generate speech with all models"⟩

/-- An attempt that is a failure the generate loop retries past. -/
def isRetryFailureG {α : Type} : Attempt α → Bool
  | Attempt.failure s _ => generateRetryable s
  | Attempt.success _ => false

/-- An attempt that is a failure the describe loop retries past. -/
def isRetryFailureD {α : Type} : Attempt α → Bool
  | Attempt.failure s _ => describeRetryable s
  | Attempt.success _ => false

/-- An attempt that is a failure the TTS loop retries past. -/
def isRetryFailureT {α : Type} : Attempt α → Bool
  | Attempt.failure s _ => !(s == some 401)
  | Attempt.success _ => false

/-- The value of the `lastError` variable after scanning a list of attempts,
starting from `le`. -/
def lastErrAux {α : Type} (le : Option ErrInfo) :
    List (String × Attempt α) → Option ErrInfo
  | [] => le
  | (_, Attempt.success _) :: rest => lastErrAux le rest
  | (_, Attempt.failure s msg) :: rest => lastErrAux (some ⟨s, msg⟩) rest

/-! ## Structural lemmas about the three loops -/

theorem lastErrAux_concat {α : Type} (init : List (String × Attempt α))
    (le : Option ErrInfo) (m : String) (s : Option Nat) (msg : String) :
    lastErrAux le (init ++ [(m, Attempt.failure s msg)]) = some ⟨s, msg⟩ := by
  induction init generalizing le with
  | nil => rfl
  | cons p rest ih =>
    obtain ⟨m2, att⟩ := p
    cases att with
    | success x => simpa [lastErrAux] using ih le
    | failure s2 msg2 => simpa [lastErrAux] using ih (some ⟨s2, msg2⟩)

theorem generateLoop_allRetry {α : Type} (cands : List (String × Attempt α))
    (le : Option ErrInfo) (h : ∀ p ∈ cands, isRetryFailureG p.2 = true) :
    generateLoop cands le = ⟨cands.map Prod.fst, none, none, lastErrAux le cands⟩ := by
  induction cands generalizing le with
  | nil => simp [generateLoop, lastErrAux]
  | cons p rest ih =>
    obtain ⟨m, att⟩ := p
    have hh := h _ (List.mem_cons_self _ _)
    cases att with
    | success x => simp [isRetryFailureG] at hh
    | failure s msg =>
      have hret : generateRetryable s = true := by simpa [isRetryFailureG] using hh
      have ht := ih (some ⟨s, msg⟩) (fun p hp => h p (List.mem_cons_of_mem _ hp))
      simp [generateLoop, hret, ht, lastErrAux]

theorem generateLoop_succEnd {α : Type} (init : List (String × Attempt α))
    (mN : String) (x : α) (le : Option ErrInfo)
    (h : ∀ p ∈ init, isRetryFailureG p.2 = true) :
    generateLoop (init ++ [(mN, Attempt.success x)]) le
      = ⟨init.map Prod.fst ++ [mN], some x, none, lastErrAux le init⟩ := by
  induction init generalizing le with
  | nil => simp [generateLoop, lastErrAux]
  | cons p rest ih =>
    obtain ⟨m, att⟩ := p
    have hh := h _ (List.mem_cons_self _ _)
    cases att with
    | success y => simp [isRetryFailureG] at hh
    | failure s msg =>
      have hret : generateRetryable s = true := by simpa [isRetryFailureG] using hh
      have ht := ih (some ⟨s, msg⟩) (fun p hp => h p (List.mem_cons_of_mem _ hp))
      simp [generateLoop, hret, ht, lastErrAux]

theorem generateLoop_fatalMid {α : Type} (pre rest : List (String × Attempt α))
    (m : String) (s : Option Nat) (msg : String) (le : Option ErrInfo)
    (hpre : ∀ p ∈ pre, isRetryFailureG p.2 = true)
    (hs : generateRetryable s = false) :
    generateLoop (pre ++ (m, Attempt.failure s msg) :: rest) le
      = ⟨pre.map Prod.fst ++ [m], none, some ⟨s, msg⟩, some ⟨s, msg⟩⟩ := by
  induction pre generalizing le with
  | nil => simp [generateLoop, hs]
  | cons p rest2 ih =>
    obtain ⟨m2, att⟩ := p
    have hh := hpre _ (List.mem_cons_self _ _)
    cases att with
    | success y => simp [isRetryFailureG] at hh
    | failure s2 msg2 =>
      have hret : generateRetryable s2 = true := by simpa [isRetryFailureG] using hh
      have ht := ih (some ⟨s2, msg2⟩) (fun p hp => hpre p (List.mem_cons_of_mem _ hp))
      simp [generateLoop, hret, ht]

theorem describeLoop_allRetry {α : Type} (cands : List (String × Attempt α))
    (le : Option ErrInfo) (h : ∀ p ∈ cands, isRetryFailureD p.2 = true) :
    describeLoop cands le = ⟨cands.map Prod.fst, none, none, lastErrAux le cands⟩ := by
  induction cands generalizing le with
  | nil => simp [describeLoop, lastErrAux]
  | cons p rest ih =>
    obtain ⟨m, att⟩ := p
    have hh := h _ (List.mem_cons_self _ _)
    cases att with
    | success x => simp [isRetryFailureD] at hh
    | failure s msg =>
      have hret : describeRetryable s = true := by simpa [isRetryFailureD] using hh
      have ht := ih (some ⟨s, msg⟩) (fun p hp => h p (List.mem_cons_of_mem _ hp))
      simp [describeLoop, hret, ht, lastErrAux]

theorem describeLoop_succEnd {α : Type} (init : List (String × Attempt α))
    (mN : String) (x : α) (le : Option ErrInfo)
    (h : ∀ p ∈ init, isRetryFailureD p.2 = true) :
    describeLoop (init ++ [(mN, Attempt.success x)]) le
      = ⟨init.map Prod.fst ++ [mN], some x, none, lastErrAux le init⟩ := by
  induction init generalizing le with
  | nil => simp [describeLoop, lastErrAux]
  | cons p rest ih =>
    obtain ⟨m, att⟩ := p
    have hh := h _ (List.mem_cons_self _ _)
    cases att with
    | success y => simp [isRetryFailureD] at hh
    | failure s msg =>
      have hret : describeRetryable s = true := by simpa [isRetryFailureD] using hh
      have ht := ih (some ⟨s, msg⟩) (fun p hp => h p (List.mem_cons_of_mem _ hp))
      simp [describeLoop, hret, ht, lastErrAux]

theorem describeLoop_fatalMid {α : Type} (pre rest : List (String × Attempt α))
    (m : String) (s : Option Nat) (msg : String) (le : Option ErrInfo)
    (hpre : ∀ p ∈ pre, isRetryFailureD p.2 = true)
    (hs : describeRetryable s = false) :
    describeLoop (pre ++ (m, Attempt.failure s msg) :: rest) le
      = ⟨pre.map Prod.fst ++ [m], none, none, some ⟨s, msg⟩⟩ := by
  induction pre generalizing le with
  | nil => simp [describeLoop, hs]
  | cons p rest2 ih =>
    obtain ⟨m2, att⟩ := p
    have hh := hpre _ (List.mem_cons_self _ _)
    cases att with
    | success y => simp [isRetryFailureD] at hh
    | failure s2 msg2 =>
      have hret : describeRetryable s2 = true := by simpa [isRetryFailureD] using hh
      have ht := ih (some ⟨s2, msg2⟩) (fun p hp => hpre p (List.mem_cons_of_mem _ hp))
      simp [describeLoop, hret, ht]

theorem ttsLoop_allRetry {α : Type} (cands : List (String × Attempt α))
    (le : Option ErrInfo) (h : ∀ p ∈ cands, isRetryFailureT p.2 = true) :
    ttsLoop cands le = ⟨cands.map Prod.fst, none, none, lastErrAux le cands⟩ := by
  induction cands generalizing le with
  | nil => simp [ttsLoop, lastErrAux]
  | cons p rest ih =>
    obtain ⟨m, att⟩ := p
    have hh := h _ (List.mem_cons_self _ _)
    cases att with
    | success x => simp [isRetryFailureT] at hh
    | failure s msg =>
      have hret : (s == some 401) = false := by
        simpa [isRetryFailureT] using hh
      have ht := ih (some ⟨s, msg⟩) (fun p hp => h p (List.mem_cons_of_mem _ hp))
      simp [ttsLoop, hret, ht, lastErrAux]

theorem ttsLoop_fatalMid {α : Type} (pre rest : List (String × Attempt α))
    (m : String) (msg : String) (le : Option ErrInfo)
    (hpre : ∀ p ∈ pre, isRetryFailureT p.2 = true) :
    ttsLoop (pre ++ (m, Attempt.failure (some 401) msg) :: rest) le
      = ⟨pre.map Prod.fst ++ [m], none, none, some ⟨some 401, msg⟩⟩ := by
  induction pre generalizing le with
  | nil => simp [ttsLoop]
  | cons p rest2 ih =>
    obtain ⟨m2, att⟩ := p
    have hh := hpre _ (List.mem_cons_self _ _)
    cases att with
    | success y => simp [isRetryFailureT] at hh
    | failure s2 msg2 =>
      have hret : (s2 == some 401) = false := by
        simpa [isRetryFailureT] using hh
      have ht := ih (some ⟨s2, msg2⟩) (fun p hp => hpre p (List.mem_cons_of_mem _ hp))
      simp [ttsLoop, hret, ht]

theorem generateLoop_tried_ne_nil {α : Type} (c : String × Attempt α)
    (cs : List (String × Attempt α)) (le : Option ErrInfo) :
    (generateLoop (c :: cs) le).tried ≠ [] := by
  obtain ⟨m, att⟩ := c
  cases att with
  | success x => simp [generateLoop]
  | failure s msg =>
    by_cases hret : generateRetryable s = true
    · simp [generateLoop, hret]
    · simp [generateLoop, Bool.of_not_eq_true hret]

theorem describeLoop_tried_ne_nil {α : Type} (c : String × Attempt α)
    (cs : List (String × Attempt α)) (le : Option ErrInfo) :
    (describeLoop (c :: cs) le).tried ≠ [] := by
  obtain ⟨m, att⟩ := c
  cases att with
  | success x => simp [describeLoop]
  | failure s msg =>
    by_cases hret : describeRetryable s = true
    · simp [describeLoop, hret]
    · simp [describeLoop, Bool.of_not_eq_true hret]

theorem ttsLoop_tried_ne_nil {α : Type} (c : String × Attempt α)
    (cs : List (String × Attempt α)) (le : Option ErrInfo) :
    (ttsLoop (c :: cs) le).tried ≠ [] := by
  obtain ⟨m, att⟩ := c
  cases att with
  | success x => simp [ttsLoop]
  | failure s msg =>
    by_cases h401 : (s == some 401) = true
    · simp [ttsLoop, h401]
    · simp [ttsLoop, Bool.of_not_eq_true h401]

/-! ## Helper lemmas for the resolver claims -/

theorem stableModelsOf_subset {models : List String} {m : String}
    (h : m ∈ stableModelsOf models) : m ∈ models :=
  (List.mem_filter.mp h).1

theorem stableModelsOf_untagged {models : List String} {m : String}
    (h : m ∈ stableModelsOf models) : isPreviewName m = false := by
  have hc := (List.mem_filter.mp h).2
  simp only [isStableName, Bool.and_eq_true, Bool.not_eq_true'] at hc
  obtain ⟨⟨⟨hp, he⟩, hx⟩, hb⟩ := hc
  simp [isPreviewName, hp, he, hx]

theorem stableModelsOf_nobeta {models : List String} {m : String}
    (h : m ∈ stableModelsOf models) : strIncludes m "beta" = false := by
  have hc := (List.mem_filter.mp h).2
  simp only [isStableName, Bool.and_eq_true, Bool.not_eq_true'] at hc
  exact hc.2

theorem pairwise_untagged {l : List String}
    (h : ∀ a ∈ l, isPreviewName a = false) :
    l.Pairwise (fun a b => isPreviewName a = true → isPreviewName b = true) := by
  induction l with
  | nil => exact List.Pairwise.nil
  | cons a t ih =>
    refine List.Pairwise.cons ?_ (ih fun x hx => h x (List.mem_cons_of_mem _ hx))
    intro b hb htag
    rw [h a (List.mem_cons_self _ _)] at htag
    cases htag

theorem pairwise_tagged {l : List String}
    (h : ∀ b ∈ l, isPreviewName b = true) :
    l.Pairwise (fun a b => isPreviewName a = true → isPreviewName b = true) := by
  induction l with
  | nil => exact List.Pairwise.nil
  | cons a t ih =>
    exact List.Pairwise.cons (fun b hb _ => h b (List.mem_cons_of_mem _ hb))
      (ih fun x hx => h x (List.mem_cons_of_mem _ hx))

/-! ## Claims about the Model Resolver -/

/-- C2 counterexample: the claim says the resolver output is non-empty for
every non-empty input, but the input consisting of the single identifier
"x-beta" (which carries "beta" but none of "preview"/"experimental"/"exp")
yields an empty candidate list. -/
theorem claim2_counterexample : getModelsToTry ["x-beta"] = [] := by decide

/-- C2 (amended): for every non-empty list of available raw model
identifiers, every identifier in the output of getModelsToTry is an element
of the input, and the static fallback list is returned exactly when the
input list is empty.  (The non-emptiness asserted by the original claim is
refuted by claim2_counterexample.) -/
theorem claim2_resolver_membership (models : List String) :
    (models ≠ [] → ∀ m ∈ getModelsToTry models, m ∈ models)
    ∧ (models = [] → getModelsToTry models = fallbackModels) := by
  constructor
  · intro hne m hm
    have hlen : models.length > 0 := List.length_pos.mpr hne
    rw [getModelsToTry, if_pos hlen] at hm
    simp only [List.mem_append] at hm
    rcases hm with ((((h | h) | h) | h) | h) | h
    · exact stableModelsOf_subset (List.mem_filter.mp h).1
    · exact stableModelsOf_subset (List.mem_filter.mp h).1
    · exact stableModelsOf_subset (List.mem_filter.mp h).1
    · exact stableModelsOf_subset (List.mem_filter.mp h).1
    · exact stableModelsOf_subset (List.mem_filter.mp h).1
    · exact (List.mem_filter.mp h).1
  · intro he
    subst he
    rfl

/-- C7: in the resolver output no preview/experimental-tagged identifier
(one containing "preview", "experimental" or "exp") precedes any identifier
containing none of those markers: once a tagged identifier occurs, every
later identifier is tagged too. -/
theorem claim7_resolver_ordering (models : List String) (h : models ≠ []) :
    (getModelsToTry models).Pairwise
      (fun a b => isPreviewName a = true → isPreviewName b = true) := by
  have hlen : models.length > 0 := List.length_pos.mpr h
  rw [getModelsToTry, if_pos hlen]
  have hSuntag : ∀ a ∈ geminiFlashOf (stableModelsOf models) ++
      geminiProOf (stableModelsOf models) ++ otherGeminiOf (stableModelsOf models) ++
      otherStableOf (stableModelsOf models) ++ gemmaModelsOf (stableModelsOf models),
      isPreviewName a = false := by
    intro a ha
    simp only [List.mem_append] at ha
    rcases ha with (((ha | ha) | ha) | ha) | ha <;>
      exact stableModelsOf_untagged (List.mem_filter.mp ha).1
  have hPtag : ∀ b ∈ previewModelsOf models, isPreviewName b = true :=
    fun b hb => (List.mem_filter.mp hb).2
  refine List.pairwise_append.mpr ⟨pairwise_untagged hSuntag, pairwise_tagged hPtag, ?_⟩
  intro a ha b hb htag
  rw [hSuntag a ha] at htag
  cases htag

/-- C7 witness: the ordering invariant at the concrete input consisting of
one experimental identifier. -/
theorem claim7_witness :
    (getModelsToTry ["gemini-exp-1"]).Pairwise
      (fun a b => isPreviewName a = true → isPreviewName b = true) :=
  claim7_resolver_ordering ["gemini-exp-1"] (by decide)

/-- C9: any identifier of a non-empty input that contains "beta" but none of
"preview", "experimental" or "exp" is silently dropped: the stable filter
removes it and the preview tail does not take it back, so it is absent from
the resolver output. -/
theorem claim9_beta_dropped (models : List String) (m : String)
    (hne : models ≠ []) (_hm : m ∈ models)
    (hbeta : strIncludes m "beta" = true)
    (hprev : strIncludes m "preview" = false)
    (hexper : strIncludes m "experimental" = false)
    (hx : strIncludes m "exp" = false) :
    m ∉ getModelsToTry models := by
  have hlen : models.length > 0 := List.length_pos.mpr hne
  rw [getModelsToTry, if_pos hlen]
  intro hmem
  simp only [List.mem_append] at hmem
  rcases hmem with ((((h | h) | h) | h) | h) | h
  · exact absurd hbeta (by simp [stableModelsOf_nobeta (List.mem_filter.mp h).1])
  · exact absurd hbeta (by simp [stableModelsOf_nobeta (List.mem_filter.mp h).1])
  · exact absurd hbeta (by simp [stableModelsOf_nobeta (List.mem_filter.mp h).1])
  · exact absurd hbeta (by simp [stableModelsOf_nobeta (List.mem_filter.mp h).1])
  · exact absurd hbeta (by simp [stableModelsOf_nobeta (List.mem_filter.mp h).1])
  · have := (List.mem_filter.mp h).2
    rw [isPreviewName, hprev, hexper, hx] at this
    cases this

/-- C9 witness: the identifier "x-beta" is in the input but not in the
resolver output. -/
theorem claim9_witness : "x-beta" ∉ getModelsToTry ["x-beta"] :=
  claim9_beta_dropped ["x-beta"] "x-beta" (by decide) (by decide)
    (by decide) (by decide) (by decide) (by decide)

/-! ## Claims about the Local Response Cache -/

/-- C6 counterexample: an entry whose age is exactly the TTL (now minus
createdAt equals CACHE_EXPIRY_MS) is still returned by the read, although
the claim says the value is returned only when the age is strictly under
the TTL. -/
theorem claim6_counterexample :
    (getCachedImage
        (fun k => if k = "exercise_image_push-ups"
          then some (CacheSlot.entry ⟨"https://img.example/pushups.png", 0, some "v2"⟩)
          else none)
        "push-ups" CACHE_EXPIRY_MS).1 = some "https://img.example/pushups.png"
    ∧ ¬(CACHE_EXPIRY_MS - 0 < CACHE_EXPIRY_MS) := by
  constructor
  · decide
  · decide

/-- C6 (amended): a read of a present entry returns its value exactly when
the version tag equals the expected version and the age is at most the TTL
(now minus createdAt less than or equal to CACHE_EXPIRY_MS, i.e. the code
evicts only when the age strictly exceeds the TTL, so an entry aged
TTL + 1ms is treated as absent); on version mismatch or expiry the entry is
removed from storage and the read returns none. -/
theorem claim6_cache_read (store : Store) (name : String) (now : Int)
    (d : CachedImage) (h : store (cacheKey name) = some (CacheSlot.entry d)) :
    ((getCachedImage store name now).1 = some d.url
      ↔ (d.version = some CACHE_VERSION ∧ now - d.timestamp ≤ CACHE_EXPIRY_MS))
    ∧ ((d.version ≠ some CACHE_VERSION ∨ now - d.timestamp > CACHE_EXPIRY_MS) →
        getCachedImage store name now = (none, removeItem store (cacheKey name))) := by
  by_cases hv : d.version = some CACHE_VERSION
  · by_cases ht : now - d.timestamp > CACHE_EXPIRY_MS
    · constructor
      · simp [getCachedImage, h, hv, ht, not_le.mpr ht]
      · intro _
        simp [getCachedImage, h, hv, ht]
    · have hle : now - d.timestamp ≤ CACHE_EXPIRY_MS := not_lt.mp ht
      constructor
      · simp [getCachedImage, h, hv, ht, hle]
      · intro hc
        rcases hc with hc | hc
        · exact absurd hv hc
        · exact absurd hc ht
  · constructor
    · simp [getCachedImage, h, hv]
    · intro _
      simp [getCachedImage, h, hv]

/-- C6 witness: the characterization applied to a concrete store holding an
entry written at time 0 and read at TTL + 1 milliseconds: the value is not
returned and the entry is evicted. -/
theorem claim6_witness :
    (((getCachedImage
        (fun k => if k = "exercise_image_squat"
          then some (CacheSlot.entry ⟨"https://img.example/squat.png", 0, some "v2"⟩)
          else none)
        "squat" 604800001).1 = some "https://img.example/squat.png"
      ↔ ((some "v2" : Option String) = some CACHE_VERSION
          ∧ (604800001 : Int) - 0 ≤ CACHE_EXPIRY_MS))
    ∧ (((some "v2" : Option String) ≠ some CACHE_VERSION
          ∨ (604800001 : Int) - 0 > CACHE_EXPIRY_MS) →
        getCachedImage
          (fun k => if k = "exercise_image_squat"
            then some (CacheSlot.entry ⟨"https://img.example/squat.png", 0, some "v2"⟩)
            else none)
          "squat" 604800001
        = (none, removeItem
            (fun k => if k = "exercise_image_squat"
              then some (CacheSlot.entry ⟨"https://img.example/squat.png", 0, some "v2"⟩)
              else none)
            (cacheKey "squat")))) :=
  claim6_cache_read
    (fun k => if k = "exercise_image_squat"
      then some (CacheSlot.entry ⟨"https://img.example/squat.png", 0, some "v2"⟩)
      else none)
    "squat" 604800001 ⟨"https://img.example/squat.png", 0, some "v2"⟩ (by decide)

/-- C8: writing a value for a key and reading the same key at the same
instant (version unchanged, no storage error in the model) returns that
value. -/
theorem claim8_cache_roundtrip (store : Store) (k v : String) (now : Int) :
    (getCachedImage (setCachedImage store k v now) k now).1 = some v := by
  have hkey : setCachedImage store k v now (cacheKey k)
      = some (CacheSlot.entry ⟨v, now, some CACHE_VERSION⟩) := by
    simp [setCachedImage]
  have hexp : ¬(CACHE_EXPIRY_MS < 0) := by decide
  simp [getCachedImage, hkey, sub_self, hexp]

/-- C10: a read that finds an unparseable (corrupt) entry returns none and
leaves the storage unchanged; the corrupt entry is not evicted. -/
theorem claim10_corrupt_entry_kept (store : Store) (name : String) (now : Int)
    (h : store (cacheKey name) = some CacheSlot.corrupt) :
    getCachedImage store name now = (none, store) := by
  simp [getCachedImage, h]

/-- C10 witness: reading a concrete corrupt entry returns none and the same
store. -/
theorem claim10_witness :
    getCachedImage
        (fun k => if k = "exercise_image_plank" then some CacheSlot.corrupt else none)
        "plank" 42
      = (none, fun k => if k = "exercise_image_plank" then some CacheSlot.corrupt else none) :=
  claim10_corrupt_entry_kept
    (fun k => if k = "exercise_image_plank" then some CacheSlot.corrupt else none)
    "plank" 42 (by decide)

/-! ## Claims about the Fallback Invoker -/

/-- C1 counterexample: the claim says every status other than 503/404/400
is Fatal (and in TTS 401), but the describe loop treats HTTP 429 as
Retryable: after a 429 on the first candidate the second candidate is
attempted, and the handler returns its payload. -/
theorem claim1_counterexample :
    (describeLoop
        ([("a", Attempt.failure (some 429) "rate limited"), ("b", Attempt.success "ok")] :
          List (String × Attempt String))
        none).tried = ["a", "b"]
    ∧ describeInvoke
        ([("a", Attempt.failure (some 429) "rate limited"), ("b", Attempt.success "ok")] :
          List (String × Attempt String))
        = RouteResult.ok "ok" := by
  constructor
  · decide
  · decide

theorem generateLoop_step_retry {α : Type} (m : String) (s : Option Nat)
    (msg : String) (rest : List (String × Attempt α)) (le : Option ErrInfo)
    (hret : generateRetryable s = true) :
    (generateLoop ((m, Attempt.failure s msg) :: rest) le).tried
      = m :: (generateLoop rest (some ⟨s, msg⟩)).tried := by
  simp [generateLoop, hret]

theorem describeLoop_step_retry {α : Type} (m : String) (s : Option Nat)
    (msg : String) (rest : List (String × Attempt α)) (le : Option ErrInfo)
    (hret : describeRetryable s = true) :
    (describeLoop ((m, Attempt.failure s msg) :: rest) le).tried
      = m :: (describeLoop rest (some ⟨s, msg⟩)).tried := by
  simp [describeLoop, hret]

theorem ttsLoop_step_retry {α : Type} (m : String) (s : Option Nat)
    (msg : String) (rest : List (String × Attempt α)) (le : Option ErrInfo)
    (h401 : (s == some 401) = false) :
    (ttsLoop ((m, Attempt.failure s msg) :: rest) le).tried
      = m :: (ttsLoop rest (some ⟨s, msg⟩)).tried := by
  simp [ttsLoop, h401]

/-- C1 (amended): the loop continues past a failed candidate exactly when
the status is Retryable for that invoker, where Retryable is 503/404/400
for generate, 503/429/404/400 for describe, and every status other than
401 for TTS: with at least one further candidate available, more than one
candidate is attempted if and only if the classification is Retryable. -/
theorem claim1_retry_classification {α : Type} (m : String) (s : Option Nat)
    (msg : String) (c2 : String × Attempt α) (cs : List (String × Attempt α))
    (le : Option ErrInfo) :
    (1 < (generateLoop ((m, Attempt.failure s msg) :: c2 :: cs) le).tried.length
      ↔ generateRetryable s = true)
    ∧ (1 < (describeLoop ((m, Attempt.failure s msg) :: c2 :: cs) le).tried.length
      ↔ describeRetryable s = true)
    ∧ (1 < (ttsLoop ((m, Attempt.failure s msg) :: c2 :: cs) le).tried.length
      ↔ (s == some 401) = false) := by
  refine ⟨?_, ?_, ?_⟩
  · by_cases hret : generateRetryable s = true
    · have hpos : 0 < (generateLoop (c2 :: cs) (some ⟨s, msg⟩)).tried.length :=
        List.length_pos.mpr (generateLoop_tried_ne_nil c2 cs (some ⟨s, msg⟩))
      rw [generateLoop_step_retry m s msg (c2 :: cs) le hret]
      simp only [List.length_cons, hret, iff_true]
      omega
    · simp [generateLoop, Bool.of_not_eq_true hret]
  · by_cases hret : describeRetryable s = true
    · have hpos : 0 < (describeLoop (c2 :: cs) (some ⟨s, msg⟩)).tried.length :=
        List.length_pos.mpr (describeLoop_tried_ne_nil c2 cs (some ⟨s, msg⟩))
      rw [describeLoop_step_retry m s msg (c2 :: cs) le hret]
      simp only [List.length_cons, hret, iff_true]
      omega
    · simp [describeLoop, Bool.of_not_eq_true hret]
  · by_cases h401 : (s == some 401) = true
    · simp [ttsLoop, h401]
    · have hpos : 0 < (ttsLoop (c2 :: cs) (some ⟨s, msg⟩)).tried.length :=
        List.length_pos.mpr (ttsLoop_tried_ne_nil c2 cs (some ⟨s, msg⟩))
      rw [ttsLoop_step_retry m s msg (c2 :: cs) le (Bool.of_not_eq_true h401)]
      simp only [List.length_cons, Bool.of_not_eq_true h401, iff_true]
      omega

/-- C5: when the first N-1 candidates fail with classifications the
generate loop retries past and candidate N succeeds with payload x, every
candidate up to N is attempted (in order, and none beyond), the loop result
is x, and the handler returns x. -/
theorem claim5_success_after_retryables {α : Type}
    (init : List (String × Attempt α)) (mN : String) (x : α)
    (h : ∀ p ∈ init, isRetryFailureG p.2 = true) :
    (generateLoop (init ++ [(mN, Attempt.success x)]) none).tried
        = init.map Prod.fst ++ [mN]
    ∧ (generateLoop (init ++ [(mN, Attempt.success x)]) none).result = some x
    ∧ generateInvoke (init ++ [(mN, Attempt.success x)]) = RouteResult.ok x := by
  have hl := generateLoop_succEnd init mN x none h
  refine ⟨by rw [hl], by rw [hl], ?_⟩
  simp [generateInvoke, hl]

/-- C5 witness: the spec scenario, a 503 on gemini-1.5-flash followed by a
success on gemini-1.5-pro, returns the payload after exactly 2 attempts. -/
theorem claim5_witness :
    generateInvoke ([("gemini-1.5-flash", Attempt.failure (some 503) "overloaded")]
        ++ [("gemini-1.5-pro", Attempt.success "ok")]) = RouteResult.ok "ok" :=
  (claim5_success_after_retryables
    [("gemini-1.5-flash", Attempt.failure (some 503) "overloaded")]
    "gemini-1.5-pro" "ok" (by decide)).2.2

theorem generateFinalMsg_503 (names : List String) (msgN : String) :
    generateFinalMsg names (some ⟨some 503, msgN⟩)
      = "All models are currently overloaded. Please try again in a few moments. Tried: " ++
          joinComma names := rfl

theorem generateFinalMsg_404 (names : List String) (msgN : String) :
    generateFinalMsg names (some ⟨some 404, msgN⟩)
      = "No available models found. Tried: " ++ joinComma names ++
          ".\n\nThis usually means the Generative AI API is not enabled in your Google Cloud project.\n\nTo fix:\n1. Go to: https://console.cloud.google.com/apis/library/generativelanguage.googleapis.com\n2. Select your project (projects/599646167290)\n3. Click \"Enable\" to enable the Generative AI API\n4. Wait a few minutes and try again\n\nOr check available models at: http://localhost:3000/api/list-models" := rfl

theorem describeFinalize_503 (names : List String) (msgN : String) :
    describeFinalize names (some ⟨some 503, msgN⟩)
      = (503, "All models are currently overloaded. Please try again in a few moments. Tried: " ++
          joinComma names) := rfl

theorem describeFinalize_404 (names : List String) (msgN : String) :
    describeFinalize names (some ⟨some 404, msgN⟩)
      = (404, "No available models found. Tried: " ++ joinComma names ++
          ". Your API key may not have access to these models.") := rfl

theorem describeFinalize_fatal (names : List String) (s : Option Nat) (msg : String)
    (hs : describeRetryable s = false) :
    describeFinalize names (some ⟨s, msg⟩) = (500, jsOrMsg msg "Unknown error occurred") := by
  simp only [describeRetryable, Bool.or_eq_false_iff] at hs
  obtain ⟨⟨⟨h503, h429⟩, h404⟩, h400⟩ := hs
  simp [describeFinalize, h503, h429, h404]

/-- C3 counterexample: the claim says the terminal error message contains
every tried candidate, but when the last Retryable failure carries HTTP 400
the generate handler throws "API Error: " with the raw message, which names
no candidate: with candidates x and y both failing 400, the final message
does not contain "x". -/
theorem claim3_counterexample :
    generateInvoke
        ([("x", Attempt.failure (some 400) "oops1"), ("y", Attempt.failure (some 400) "oops2")] :
          List (String × Attempt String))
      = RouteResult.err 500 "API Error: oops2"
    ∧ strIncludes "API Error: oops2" "x" = false := by
  constructor
  · decide
  · decide

/-- C3 (amended): when every candidate fails with a classification the loop
retries past, the handler returns the terminal error built from the last
failure (status 500 for generate, whose thrown Error has no status; the
classification-specific status for describe), and the message enumerates
all tried candidate identifiers when the last failure is HTTP 503 or 404;
for other retryable statuses (400, and 429 in describe) the message does
not enumerate the candidates. -/
theorem claim3_terminal_error {α : Type} (init : List (String × Attempt α))
    (mN : String) (sN : Option Nat) (msgN : String) :
    ((∀ p ∈ init ++ [(mN, Attempt.failure sN msgN)], isRetryFailureG p.2 = true) →
      generateInvoke (init ++ [(mN, Attempt.failure sN msgN)])
          = RouteResult.err 500
              (generateFinalMsg ((init ++ [(mN, Attempt.failure sN msgN)]).map Prod.fst)
                (some ⟨sN, msgN⟩))
        ∧ ((sN = some 503 ∨ sN = some 404) →
            ∀ c ∈ (init ++ [(mN, Attempt.failure sN msgN)]).map Prod.fst,
              strIncludes
                (generateFinalMsg ((init ++ [(mN, Attempt.failure sN msgN)]).map Prod.fst)
                  (some ⟨sN, msgN⟩)) c = true))
    ∧ ((∀ p ∈ init ++ [(mN, Attempt.failure sN msgN)], isRetryFailureD p.2 = true) →
      describeInvoke (init ++ [(mN, Attempt.failure sN msgN)])
          = RouteResult.err
              (describeFinalize ((init ++ [(mN, Attempt.failure sN msgN)]).map Prod.fst)
                (some ⟨sN, msgN⟩)).1
              (describeFinalize ((init ++ [(mN, Attempt.failure sN msgN)]).map Prod.fst)
                (some ⟨sN, msgN⟩)).2
        ∧ ((sN = some 503 ∨ sN = some 404) →
            ∀ c ∈ (init ++ [(mN, Attempt.failure sN msgN)]).map Prod.fst,
              strIncludes
                (describeFinalize ((init ++ [(mN, Attempt.failure sN msgN)]).map Prod.fst)
                  (some ⟨sN, msgN⟩)).2 c = true)) := by
  constructor
  · intro hall
    have hloop := generateLoop_allRetry (init ++ [(mN, Attempt.failure sN msgN)]) none hall
    have hlast := lastErrAux_concat init none mN sN msgN
    constructor
    · simp [generateInvoke, hloop, hlast]
    · intro hcase c hc
      rcases hcase with h | h
      · subst h
        rw [generateFinalMsg_503]
        exact strIncludes_pre_join _ hc
      · subst h
        rw [generateFinalMsg_404]
        exact strIncludes_pre_join_suf _ _ hc
  · intro hall
    have hloop := describeLoop_allRetry (init ++ [(mN, Attempt.failure sN msgN)]) none hall
    have hlast := lastErrAux_concat init none mN sN msgN
    constructor
    · simp [describeInvoke, hloop, hlast]
    · intro hcase c hc
      rcases hcase with h | h
      · subst h
        rw [describeFinalize_503]
        exact strIncludes_pre_join _ hc
      · subst h
        rw [describeFinalize_404]
        exact strIncludes_pre_join_suf _ _ hc

/-- C3 witness: with candidates gemini-1.5-flash and gemini-1.5-pro both
failing 503, the terminal message of the generate handler contains both
identifiers. -/
theorem claim3_witness :
    strIncludes
        (generateFinalMsg ["gemini-1.5-flash", "gemini-1.5-pro"]
          (some ⟨some 503, "overloaded"⟩)) "gemini-1.5-flash" = true
    ∧ strIncludes
        (generateFinalMsg ["gemini-1.5-flash", "gemini-1.5-pro"]
          (some ⟨some 503, "overloaded"⟩)) "gemini-1.5-pro" = true := by
  have h := (claim3_terminal_error (α := String)
      [("gemini-1.5-flash", Attempt.failure (some 503) "overloaded")]
      "gemini-1.5-pro" (some 503) "overloaded").1 (by decide)
  exact ⟨h.2 (Or.inl rfl) "gemini-1.5-flash" (by decide),
    h.2 (Or.inl rfl) "gemini-1.5-pro" (by decide)⟩

/-- C4 counterexample: the claim says a first-candidate 401 yields a
Fatal/Unauthorized error after exactly 1 attempt, and that the Fatal error
is surfaced unchanged; in the describe handler the loop does stop after one
attempt, but the response carries HTTP status 500 (not 401) with the raw
message. -/
theorem claim4_counterexample :
    (describeLoop
        ([("a", Attempt.failure (some 401) "unauthorized"), ("b", Attempt.success "ok")] :
          List (String × Attempt String))
        none).tried = ["a"]
    ∧ describeInvoke
        ([("a", Attempt.failure (some 401) "unauthorized"), ("b", Attempt.success "ok")] :
          List (String × Attempt String))
        = RouteResult.err 500 "unauthorized" := by
  constructor
  · decide
  · decide

/-- C4 (amended): after any Fatal failure no subsequent candidate is
attempted in any of the three invokers; the generate handler surfaces the
Fatal error with its own status and message, the describe handler responds
500 carrying the Fatal message (the original status is lost), and the TTS
handler returns its 401 Authentication-failed response when the Fatal
failure is a 401. -/
theorem claim4_fatal_stop {α : Type} (pre rest : List (String × Attempt α))
    (m : String) (s : Option Nat) (msg : String) :
    ((∀ p ∈ pre, isRetryFailureG p.2 = true) → generateRetryable s = false →
      (generateLoop (pre ++ (m, Attempt.failure s msg) :: rest) none).tried
          = pre.map Prod.fst ++ [m]
      ∧ generateInvoke (pre ++ (m, Attempt.failure s msg) :: rest)
          = RouteResult.err (jsOrStatus s 500) msg)
    ∧ ((∀ p ∈ pre, isRetryFailureD p.2 = true) → describeRetryable s = false →
      (describeLoop (pre ++ (m, Attempt.failure s msg) :: rest) none).tried
          = pre.map Prod.fst ++ [m]
      ∧ describeInvoke (pre ++ (m, Attempt.failure s msg) :: rest)
          = RouteResult.err 500 (jsOrMsg msg "Unknown error occurred"))
    ∧ ((∀ p ∈ pre, isRetryFailureT p.2 = true) → s = some 401 →
      (ttsLoop (pre ++ (m, Attempt.failure s msg) :: rest) none).tried
          = pre.map Prod.fst ++ [m]
      ∧ ttsInvoke (pre ++ (m, Attempt.failure s msg) :: rest) = TtsResult.authFailed) := by
  refine ⟨?_, ?_, ?_⟩
  · intro hpre hs
    have hl := generateLoop_fatalMid pre rest m s msg none hpre hs
    exact ⟨by rw [hl], by simp [generateInvoke, hl]⟩
  · intro hpre hs
    have hl := describeLoop_fatalMid pre rest m s msg none hpre hs
    refine ⟨by rw [hl], ?_⟩
    simp [describeInvoke, hl, describeFinalize_fatal _ _ _ hs]
  · intro hpre hs
    subst hs
    have hl := ttsLoop_fatalMid pre rest m msg none hpre
    refine ⟨by rw [hl], ?_⟩
    simp [ttsInvoke, hl]

/-- C4 witness: one retryable 503 on candidate p, then a Fatal 401 on
candidate a with candidate b never attempted, in all three invokers. -/
theorem claim4_witness :
    ((generateLoop
        ([("p", Attempt.failure (some 503) "overloaded")] ++
          ("a", Attempt.failure (some 401) "bad key") :: [("b", Attempt.success "ok")])
        (none : Option ErrInfo)).tried = ["p", "a"]
      ∧ generateInvoke
          ([("p", Attempt.failure (some 503) "overloaded")] ++
            ("a", Attempt.failure (some 401) "bad key") :: [("b", Attempt.success "ok")])
          = RouteResult.err 401 "bad key")
    ∧ ((describeLoop
        ([("p", Attempt.failure (some 503) "overloaded")] ++
          ("a", Attempt.failure (some 401) "bad key") :: [("b", Attempt.success "ok")])
        (none : Option ErrInfo)).tried = ["p", "a"]
      ∧ describeInvoke
          ([("p", Attempt.failure (some 503) "overloaded")] ++
            ("a", Attempt.failure (some 401) "bad key") :: [("b", Attempt.success "ok")])
          = RouteResult.err 500 "bad key")
    ∧ ((ttsLoop
        ([("p", Attempt.failure (some 503) "overloaded")] ++
          ("a", Attempt.failure (some 401) "bad key") :: [("b", Attempt.success "ok")])
        (none : Option ErrInfo)).tried = ["p", "a"]
      ∧ ttsInvoke
          ([("p", Attempt.failure (some 503) "overloaded")] ++
            ("a", Attempt.failure (some 401) "bad key") :: [("b", Attempt.success "ok")])
          = TtsResult.authFailed) := by
  have h := claim4_fatal_stop (α := String)
    [("p", Attempt.failure (some 503) "overloaded")] [("b", Attempt.success "ok")]
    "a" (some 401) "bad key"
  exact ⟨h.1 (by decide) (by decide), h.2.1 (by decide) (by decide),
    h.2.2 (by decide) rfl⟩

end FitnessApp
